import Mathlib

/-!
Verification development for the FileZ (filejacket) repository.

The definitions below are a shallow embedding of the Python sources:

* `src/filejacket/file/content.py` — `FileContent` (buffer + cache strategy),
  the cache strategies `CacheInMemory` and `NonCache`, and `FilePacket`;
* `src/filejacket/pipelines/base.py` — `BaseComparer.process` and
  `BaseHasher.load_from_file`;
* `src/filejacket/pipelines/renamer.py` — `WindowsRenamer`, `LinuxRenamer`
  and `UniqueRenamer`;
* `src/filejacket/file/action.py` — `FileActions`.

String and bytes payloads are modelled uniformly as `List Nat` (one element
per character/byte); `StringIO`/`BytesIO` streams are modelled as a list with
an explicit cursor.  Python exceptions are modelled by the `PyErr` inductive
and fallible operations return `Except PyErr _`.  Unbounded `while` loops are
modelled with an explicit fuel argument; the theorems always supply provably
sufficient fuel.
-/

namespace FileZ

/-- Python exceptions raised by the embedded code. -/
inductive PyErr where
  | valueError
  | serializerError
  | stopIteration
  | operationNotAllowed
  | improperlyConfigured
  | emptyContent
  | recursionError
  | attributeNone
  | typeErrorNone
  | multipleFileExist
  | fileNotFound
  | indexError
  | blockingError
  | typeErrorNotCallable
  | fuelOut
  deriving DecidableEq, Repr

/-- Model of a `StringIO`/`BytesIO` style stream: payload, cursor, seekability. -/
structure StreamBuf where
  data : List Nat
  pos : Nat
  seekable : Bool
  deriving DecidableEq, Repr

/-- `stream.read(n)`: returns up to `n` elements from the cursor and advances it. -/
def StreamBuf.read (b : StreamBuf) (n : Nat) : List Nat × StreamBuf :=
  let blk := (b.data.drop b.pos).take n
  (blk, { b with pos := b.pos + blk.length })

/-- The cache strategy classes selectable by `FileContent.__init__`
(`content.py`): `NonCache` and `CacheInMemory`. -/
inductive CacheKind where
  | noneKind
  | memoryKind
  deriving DecidableEq, Repr

/-- An instantiated cache strategy (`FileContent._cached_content`).
`memory` carries the `CacheInMemory` growable buffer (`content` attribute):
its stored data, its cursor, and the `cached` flag. `nonCache` mirrors the
stateless `NonCache` instance. -/
inductive CachedContent where
  | nonCache
  | memory (stored : List Nat) (pos : Nat) (cached : Bool)
  deriving DecidableEq, Repr

/-- State of a `FileContent` object (`content.py`, class `FileContent`):
`_block_size`, `_iterable_in_use`, `buffer`, `cache_helper` (a class, `none`
when the attribute is still the class-level `None`), `_cached_content`. -/
structure FCState where
  blockSize : Nat
  iterableInUse : Bool
  buffer : StreamBuf
  cacheHelper : Option CacheKind
  cachedContent : Option CachedContent
  deriving DecidableEq, Repr

/-- `self.cached` property: `self._cached_content and self._cached_content.cached`;
a `None` cache instance is falsy and `NonCache.cached` is always `False`. -/
def FCState.cachedFlag (s : FCState) : Bool :=
  match s.cachedContent with
  | some (.memory _ _ c) => c
  | _ => false

/-- `self.reset()`: seek the buffer to 0 when it is seekable. -/
def FCState.reset (s : FCState) : FCState :=
  if s.buffer.seekable then { s with buffer := { s.buffer with pos := 0 } } else s

/-- `self._cached_content.load_buffer_from_cache()`.  A `None` instance raises
`AttributeError` (modelled `attributeNone`), `NonCache` raises
`OperationNotAllowed`, `CacheInMemory` returns its growable buffer. -/
def FCState.cacheLoadBuffer (s : FCState) : Except PyErr StreamBuf :=
  match s.cachedContent with
  | none => .error .attributeNone
  | some .nonCache => .error .operationNotAllowed
  | some (.memory st p _) => .ok ⟨st, p, true⟩

/-- `self._cached_content.set_cached()`: sets the `cached` flag
(`NonCache.set_cached` is a no-op). -/
def FCState.setCached (s : FCState) : FCState :=
  match s.cachedContent with
  | some (.memory st p _) => { s with cachedContent := some (.memory st p true) }
  | _ => s

/-- `self._cached_content.save_and_return(block)`: `CacheInMemory` appends the
block to its buffer (the write cursor always sits at the end in every
reachable state) and returns it, `NonCache` returns it untouched, a `None`
instance raises `AttributeError`. -/
def FCState.cacheSaveAndReturn (s : FCState) (blk : List Nat) :
    Except PyErr (List Nat × FCState) :=
  match s.cachedContent with
  | none => .error .attributeNone
  | some .nonCache => .ok (blk, s)
  | some (.memory st _ c) =>
      .ok (blk, { s with cachedContent := some (.memory (st ++ blk) (st ++ blk).length c) })

/-- `self._cached_content.load_from_cache()` for the strategies reachable from
`FileContent.__init__`: `CacheInMemory` seeks its buffer to 0 and reads it
whole, `NonCache` raises `OperationNotAllowed`. -/
def FCState.cacheLoadFromCache (s : FCState) : Except PyErr (List Nat × FCState) :=
  match s.cachedContent with
  | none => .error .attributeNone
  | some .nonCache => .error .operationNotAllowed
  | some (.memory st _ c) =>
      .ok (st, { s with cachedContent := some (.memory st st.length c) })

/-- `FileContent.__next__` (content.py lines 446-480).  Returns either one
block or the raised exception, together with the mutated object state. -/
def FCState.next (s : FCState) : Except PyErr (List Nat) × FCState :=
  let s1 : FCState := { s with iterableInUse := true }
  let r := s1.buffer.read s1.blockSize
  let s2 : FCState := { s1 with buffer := r.2 }
  if r.1 = [] then
    if s2.cachedFlag then
      (.error .stopIteration, { s2.reset with iterableInUse := false })
    else
      match s2.cacheLoadBuffer with
      | .ok nb =>
          let s3 := FCState.setCached { s2 with buffer := nb }
          (.error .stopIteration, { s3.reset with iterableInUse := false })
      | .error .operationNotAllowed =>
          (.error .stopIteration, { s2.reset with iterableInUse := false })
      | .error e => (.error e, s2)
  else
    if s2.cachedFlag then (.ok r.1, s2)
    else
      match s2.cacheSaveAndReturn r.1 with
      | .ok br => (.ok br.1, br.2)
      | .error e => (.error e, s2)

/-- Instantiation of `self.cache_helper(buffer_helper=...)`:
`NonCache.__init__` does nothing and succeeds, but `CacheInMemory.__init__`
(content.py line 217) executes
`self.content = buffer_helper(newline=buffer_helper.newline)` where
`buffer_helper` is the `BufferStr()`/`BufferBytes()` *instance* passed in by
`FileContent.__iter__`/`content`; neither class defines `__call__`, so the
call raises `TypeError` (modelled `typeErrorNotCallable`) on every
instantiation reachable from `FileContent`. -/
def newCache : CacheKind → Except PyErr CachedContent
  | .noneKind => .ok .nonCache
  | .memoryKind => .error .typeErrorNotCallable

/-- The `_cached_content` initialisation shared by `FileContent.__iter__` and
the `content` property: create the cache instance when it is still `None`.
Calling a `None` `cache_helper` raises `TypeError` (modelled `typeErrorNone`);
instantiating `CacheInMemory` raises the `TypeError` collapsed in `newCache`. -/
def FCState.ensureCache (s : FCState) : Except PyErr FCState :=
  match s.cachedContent with
  | some _ => .ok s
  | none =>
      match s.cacheHelper with
      | none => .error .typeErrorNone
      | some k =>
          match newCache k with
          | .error e => .error e
          | .ok c => .ok { s with cachedContent := some c }

/-- The `while True: next(iterator) ... except StopIteration: break` loop of
`CacheInMemory.consume`, also used to model driving the iterator to
exhaustion.  Collects the blocks produced by each successful `__next__`.
`StopIteration` ends the loop; any other exception propagates. -/
def drainBlocks : Nat → FCState → Except PyErr (List (List Nat) × FCState)
  | 0, _ => .error .fuelOut
  | fuel + 1, s =>
      match s.next with
      | (.error .stopIteration, s1) => .ok ([], s1)
      | (.error e, _) => .error e
      | (.ok b, s1) =>
          match drainBlocks fuel s1 with
          | .ok r => .ok (b :: r.1, r.2)
          | .error e => .error e

/-- `self._cached_content.consume(iterator=self)`: `NonCache` raises
`OperationNotAllowed`; `CacheInMemory` drains the iterator unless its
`cached` flag is already set. -/
def FCState.cacheConsume (fuel : Nat) (s : FCState) : Except PyErr FCState :=
  match s.cachedContent with
  | none => .error .attributeNone
  | some .nonCache => .error .operationNotAllowed
  | some (.memory _ _ c) =>
      if c then .ok s
      else
        match drainBlocks fuel s with
        | .ok r => .ok r.2
        | .error e => .error e

/-- The `content` property (content.py lines 521-548): ensure the cache
instance exists, `consume` the iterator through it, then `load_from_cache`;
`OperationNotAllowed` is converted into `ImproperlyConfiguredFile`. -/
def FCState.contentProp (fuel : Nat) (s : FCState) : Except PyErr (List Nat) × FCState :=
  match s.ensureCache with
  | .error e => (.error e, s)
  | .ok s1 =>
      match FCState.cacheConsume fuel s1 with
      | .error .operationNotAllowed => (.error .improperlyConfigured, s1)
      | .error e => (.error e, s1)
      | .ok s2 =>
          match s2.cacheLoadFromCache with
          | .error .operationNotAllowed => (.error .improperlyConfigured, s2)
          | .error e => (.error e, s2)
          | .ok vr => (.ok vr.1, vr.2)

/-- `FileContent.read(size)` (content.py lines 626-653).  `size = none` models
passing `None` (and `some 0` is equally falsy): both return `self.content`.
A positive size temporarily overrides `_block_size`, performs one `__next__`
step and restores it; while `_iterable_in_use` is set it raises
`RecursionError` before touching any state. -/
def FCState.read (fuel : Nat) (s : FCState) (size : Option Nat) :
    Except PyErr (List Nat) × FCState :=
  if s.iterableInUse then (.error .recursionError, s)
  else
    match size with
    | none => s.contentProp fuel
    | some 0 => s.contentProp fuel
    | some n =>
        let orig := s.blockSize
        let s1 : FCState := { s with blockSize := n }
        match s1.next with
        | (.error e, s2) => (.error e, s2)
        | (.ok b, s2) => (.ok b, { s2 with blockSize := orig, iterableInUse := false })

/- ------------------------------------------------------------------ -/
/- `NonCache` (content.py lines 250-293), modelled as its own little    -/
/- state machine so that "every sequence of prior calls" can be stated. -/
/- ------------------------------------------------------------------ -/

/-- Instance state of `NonCache`: the class-level `cached` flag and the
class-level `content` attribute (never touched by any method). -/
structure NCState where
  cached : Bool
  content : Option (List Nat)
  deriving DecidableEq, Repr

/-- `NonCache.__init__` leaves the class-level attributes as they are. -/
def NCState.mk0 : NCState := ⟨false, none⟩

/-- The methods callable on a `NonCache` instance. -/
inductive NCOp where
  | saveAndReturn (c : List Nat)
  | setCached
  | loadFromCache
  | loadBufferFromCache
  | consume
  deriving DecidableEq, Repr

/-- `NonCache.save_and_return(content)`: returns the content, stores nothing. -/
def NCState.saveAndReturn (s : NCState) (c : List Nat) : List Nat × NCState := (c, s)

/-- `NonCache.set_cached()`: the body is `...`, a no-op. -/
def NCState.setCached (s : NCState) : NCState := s

/-- `NonCache.load_from_cache()`: unconditionally raises `OperationNotAllowed`. -/
def NCState.loadFromCache (_ : NCState) : Except PyErr (List Nat) :=
  .error .operationNotAllowed

/-- `NonCache.load_buffer_from_cache()`: unconditionally raises
`OperationNotAllowed`. -/
def NCState.loadBufferFromCache (_ : NCState) : Except PyErr StreamBuf :=
  .error .operationNotAllowed

/-- `NonCache.consume(iterator)`: unconditionally raises `OperationNotAllowed`
without touching the iterator. -/
def NCState.consume (_ : NCState) : Except PyErr Unit :=
  .error .operationNotAllowed

/-- State transition of one method call on a `NonCache` instance (the three
raising methods leave the state unchanged because they raise before any
assignment; the other two have no state effect by their code). -/
def NCState.step (s : NCState) : NCOp → NCState
  | .saveAndReturn c => (s.saveAndReturn c).2
  | .setCached => s.setCached
  | .loadFromCache => s
  | .loadBufferFromCache => s
  | .consume => s

/- ------------------------------------------------------------------ -/
/- `FilePacket` (content.py lines 656-797).                            -/
/- ------------------------------------------------------------------ -/

/-- State of a `FilePacket`, generic over the nested-file payload `F`:
`_internal_files` is an insertion-ordered mapping from the internal path key
to `(file, length)`; `history` models the class-level `None` default and the
instance list; `length` is the total unpacked length. -/
structure FilePacket (F : Type) where
  internalFiles : List (List Nat × F × Nat)
  history : Option (List (List (List Nat × F × Nat)))
  length : Nat

/-- `FilePacket.__init__` without keyword arguments: fresh mapping, zero
length, `history` left at its class-level `None`. -/
def FilePacket.mk0 (F : Type) : FilePacket F := ⟨[], none, 0⟩

/-- Ordered-dict update used by `__setitem__`: replace the value when the key
is present, append otherwise. -/
def dictSet {F : Type} : List (List Nat × F × Nat) → List Nat → F × Nat →
    List (List Nat × F × Nat)
  | [], k, v => [(k, v)]
  | e :: rest, k, v =>
      if e.1 = k then (k, v) :: rest else e :: dictSet rest k v

/-- `FilePacket.__setitem__(key, value)` with `flen` standing for
`len(value)`: adds `flen` to the total length and stores `(value, flen)`
under the key. -/
def FilePacket.setItem {F : Type} (p : FilePacket F) (key : List Nat) (f : F)
    (flen : Nat) : FilePacket F :=
  { p with length := p.length + flen,
           internalFiles := dictSet p.internalFiles key (f, flen) }

/-- `FilePacket.files_length()`: the list of stored entry lengths. -/
def FilePacket.filesLength {F : Type} (p : FilePacket F) : List Nat :=
  p.internalFiles.map (fun e => e.2.2)

/-- `FilePacket.clean_history()`. -/
def FilePacket.cleanHistory {F : Type} (p : FilePacket F) : FilePacket F :=
  { p with history := some [] }

/-- `FilePacket.reset()` (content.py lines 784-797): initialise `history` if
it is `None`, then — only when the mapping is non-empty — append the current
mapping to the history and clear it.  The `length` attribute is not touched. -/
def FilePacket.reset {F : Type} (p : FilePacket F) : FilePacket F :=
  let p1 := match p.history with
            | none => p.cleanHistory
            | some _ => p
  if p1.internalFiles.isEmpty then p1
  else
    { p1 with history := some ((p1.history.getD []) ++ [p1.internalFiles]),
              internalFiles := [] }

/- ------------------------------------------------------------------ -/
/- `BaseComparer.process` (pipelines/base.py lines 74-102).            -/
/- ------------------------------------------------------------------ -/

/-- The `for element in objects_to_compare` loop of `BaseComparer.process`:
`cmp` models the polymorphic `is_the_same` (returning `True`, `False` or
`None`, modelled `some true / some false / none`); the loop returns the first
result that is not `True` without looking at later elements, and `True`
when every element compared truthy. -/
def comparerLoop {α : Type} (cmp : α → α → Option Bool) (obj : α) :
    List α → Option Bool
  | [] => some true
  | e :: rest =>
      let r := cmp obj e
      if r = some true then comparerLoop cmp obj rest else r

/-- `BaseComparer.process`: raises `ValueError` on an empty candidate list,
otherwise runs the comparison loop. -/
def comparerProcess {α : Type} (cmp : α → α → Option Bool) (obj : α)
    (objs : List α) : Except PyErr (Option Bool) :=
  if objs.isEmpty then .error .valueError
  else .ok (comparerLoop cmp obj objs)

/- ------------------------------------------------------------------ -/
/- `BaseHasher.load_from_file` (pipelines/base.py lines 314-486).      -/
/- ------------------------------------------------------------------ -/

/-- Python's substring test `p in s` on character lists. -/
def containsSub (p : List Char) : List Char → Bool
  | [] => p.isEmpty
  | c :: rest => p.isPrefixOf (c :: rest) || containsSub p rest

/-- `line.lstrip().split(maxsplit=1)[0]`: the first whitespace-delimited
token; `none` models the `IndexError` raised when the line is blank. -/
def firstToken (line : List Char) : Option (List Char) :=
  let t := (line.dropWhile Char.isWhitespace).takeWhile (fun c => ¬ c.isWhitespace)
  if t = [] then none else some t

/-- The per-manifest-file scanning loop of `load_from_file` (the body of
`for file_path in set(files_to_check)`, lines 422-484): scan the lines of one
sidecar file; a line containing `full_path` returns its first token at once; a
line containing `full_name` adds a candidate.  After the scan: with several
candidates, agreeing digests return the first one and disagreeing digests
raise `MultipleFileExistError`; one candidate is returned; none yields
`none` so the outer loop continues with the next file. -/
def scanManifest (fullPath fullName filePath : List Char) :
    List (List Char) → List (List Char × List Char) →
    Except PyErr (Option (List Char × List Char))
  | [], candidates =>
      match candidates with
      | [] => .ok none
      | [c] => .ok (some c)
      | c :: rest =>
          if rest.all (fun v => v.1 = c.1) then .ok (some c)
          else .error .multipleFileExist
  | line :: rest, candidates =>
      match line with
      | [] => .error .indexError
      | ch :: _ =>
          if ch ≠ ';' ∧ ch ≠ '#' then
            if containsSub fullPath line then
              match firstToken line with
              | none => .error .indexError
              | some t => .ok (some (t, filePath))
            else if containsSub fullName line then
              match firstToken line with
              | none => .error .indexError
              | some t => scanManifest fullPath fullName filePath rest
                  (candidates ++ [(t, filePath)])
            else scanManifest fullPath fullName filePath rest candidates
          else scanManifest fullPath fullName filePath rest candidates

/-- The outer loop of `load_from_file` over the searched set of manifest
paths.  `fs` models the storage collaborator: `fs p = some lines` when
`exists(p)` holds and `read_lines(p)` yields `lines`.  When no manifest
settles the lookup, `FileNotFoundError` is raised. -/
def loadFromFile (fullPath fullName : List Char) (toCheck : List (List Char))
    (fs : List Char → Option (List (List Char))) :
    Except PyErr (List Char × List Char) :=
  match toCheck with
  | [] => .error .fileNotFound
  | p :: rest =>
      match fs p with
      | none => loadFromFile fullPath fullName rest fs
      | some lines =>
          match scanManifest fullPath fullName p lines [] with
          | .error e => .error e
          | .ok (some r) => .ok r
          | .ok none => loadFromFile fullPath fullName rest fs

/- ------------------------------------------------------------------ -/
/- `FileActions` (file/action.py).                                     -/
/- ------------------------------------------------------------------ -/

/-- The pending/done flag pairs of `FileActions` (only the fields the claims
touch need individual names; the remaining pairs behave identically). -/
structure FileActions where
  save : Bool
  was_saved : Bool
  extract : Bool
  was_extracted : Bool
  rename : Bool
  was_renamed : Bool
  deriving DecidableEq, Repr

/-- `FileActions.to_save()`. -/
def FileActions.toSave (a : FileActions) : FileActions :=
  { a with save := true, was_saved := false }

/-- `FileActions.saved()`. -/
def FileActions.savedCall (a : FileActions) : FileActions :=
  { a with save := false, was_saved := true }

/-- `FileContent.__init__` (content.py lines 359-434) restricted to the three
raw-value shapes the claims exercise: `None` (`raw = none`) and a `str`/
`bytes` payload (`raw = some v`; both become a fresh seekable in-memory
stream).  `blockSize` models the `_block_size` keyword argument (default 256)
processed before `raw_value`; `bufferKw` models a prebuilt `buffer` passed
through the keyword arguments, which makes `__init__` return before the
falsy-value check, leaving `cache_helper` at its class-level `None`.  A falsy
`raw_value` without a `buffer` keyword raises `ValueError`. -/
def fileContentMk (raw : Option (List Nat)) (force : Bool) (blockSize : Nat)
    (bufferKw : Option StreamBuf) : Except PyErr FCState :=
  match bufferKw with
  | some b =>
      .ok { blockSize := blockSize, iterableInUse := false, buffer := b,
            cacheHelper := none, cachedContent := none }
  | none =>
      match raw with
      | none => .error .valueError
      | some [] => .error .valueError
      | some v =>
          let buf : StreamBuf := ⟨v, 0, true⟩
          .ok { blockSize := blockSize, iterableInUse := false, buffer := buf,
                cacheHelper := some (if ¬ buf.seekable ∨ force then .memoryKind else .noneKind),
                cachedContent := none }

/- ------------------------------------------------------------------ -/
/- Renamers (pipelines/renamer.py).                                    -/
/- ------------------------------------------------------------------ -/

/-- `[0-9]` character class. -/
def isAsciiDigit (c : Char) : Bool := '0' ≤ c ∧ c ≤ '9'

/-- Full match of `\([0-9]+\)` against a character list. -/
def parenDigits (s : List Char) : Bool :=
  match s with
  | '(' :: rest =>
      let ds := rest.takeWhile isAsciiDigit
      ds ≠ [] ∧ rest.dropWhile isAsciiDigit = [')']
  | _ => false

/-- Full match of the WindowsRenamer alternative ` ?\([0-9]+\)` (anchored at
`$`, so it must consume the whole suffix). -/
def winParenMatch (s : List Char) : Bool :=
  match s with
  | ' ' :: rest => parenDigits rest ∨ parenDigits s
  | _ => parenDigits s

/-- Full match of the WindowsRenamer alternative `\[[0-9]+\]`. -/
def winBracketMatch (s : List Char) : Bool :=
  match s with
  | '[' :: rest =>
      let ds := rest.takeWhile isAsciiDigit
      ds ≠ [] ∧ rest.dropWhile isAsciiDigit = [']']
  | _ => false

/-- A non-empty match of the `WindowsRenamer.enumeration_pattern`
`" ?\([0-9]+\)$|\[[0-9]+\]$|$"` starting at a given suffix. -/
def winEnumMatch (s : List Char) : Bool := winParenMatch s ∨ winBracketMatch s

/-- Full match of the LinuxRenamer alternative `( +)?\- +[0-9]+` (anchored at
`$`): optional leading spaces, a dash, at least one space, digits to the end. -/
def linuxEnumMatch (s : List Char) : Bool :=
  match s.dropWhile (fun c => c = ' ') with
  | '-' :: rest =>
      rest.takeWhile (fun c => c = ' ') ≠ [] ∧
      (let ds := rest.dropWhile (fun c => c = ' ')
       ds ≠ [] ∧ ds.all isAsciiDigit)
  | _ => false

/-- Index of the leftmost suffix where the non-empty matcher `m` matches
fully (all renamer alternatives are `$`-anchored, so every non-empty match is
a full suffix of the subject). -/
def suffixMatchIdx (m : List Char → Bool) : List Char → Option Nat
  | [] => none
  | c :: rest =>
      if m (c :: rest) then some 0
      else (suffixMatchIdx m rest).map (fun i => i + 1)

/-- `pattern.sub(repl, s)` for the renamer patterns, which are an alternation
of `$`-anchored non-empty alternatives plus a final `|$`.  Under Python ≥ 3.7
`re.sub` also replaces an empty match adjacent to a previous non-empty match,
so when a non-empty (suffix) match exists the replacement is inserted twice:
once for the suffix and once for the empty `$` match that follows it; with no
non-empty match only the empty `$` match at the end is replaced. -/
def pySubAnchored (m : List Char → Bool) (repl s : List Char) : List Char :=
  match suffixMatchIdx m s with
  | some i => s.take i ++ repl ++ repl
  | none => s ++ repl

/-- Decimal digits of a number, as characters (used for the `f" ({i})"` and
`f" - {i}"` replacement strings). -/
def natCharsAux : Nat → Nat → List Char
  | 0, _ => []
  | fuel + 1, n =>
      if n < 10 then [Nat.digitChar n]
      else natCharsAux fuel (n / 10) ++ [Nat.digitChar (n % 10)]

/-- Decimal representation of a natural number as a character list. -/
def natChars (n : Nat) : List Char := natCharsAux (n + 1) n

/-- `f".{extension}" if extension else ""`: `None` and the empty string are
falsy. -/
def formatExtension (ext : Option (List Char)) : List Char :=
  match ext with
  | none => []
  | some e => if e = [] then [] else '.' :: e

/-- `BaseRenamer.is_name_reserved(filename, formatted_extension)`. -/
def isNameReserved (reserved : List (List Char)) (name : List Char) : Bool :=
  reserved.contains name

/-- The collision test shared by the renamer `while` loops:
`file_system_handler.exists(directory_path + filename + formatted_extension)
or is_name_reserved(filename, formatted_extension)`. -/
def renamerCollides (exs : List Char → Bool) (reserved : List (List Char))
    (dir fext name : List Char) : Bool :=
  exs (dir ++ name ++ fext) ∨ isNameReserved reserved (name ++ fext)

/-- The `while` loop of `WindowsRenamer.get_name` / `LinuxRenamer.get_name`,
parametrised by the enumeration matcher and the replacement builder; `fuel`
bounds the unbounded Python loop (the theorems supply enough). -/
def enumRenameLoop (m : List Char → Bool) (repl : Nat → List Char)
    (exs : List Char → Bool) (reserved : List (List Char)) (dir fext : List Char) :
    Nat → Nat → List Char → Except PyErr (List Char)
  | 0, _, _ => .error .fuelOut
  | fuel + 1, i, fn =>
      if renamerCollides exs reserved dir fext fn then
        enumRenameLoop m repl exs reserved dir fext fuel (i + 1)
          (pySubAnchored m (repl (i + 1)) fn)
      else .ok fn

/-- `WindowsRenamer.get_name` (renamer.py lines 45-66): strip the trailing
enumeration, then bump ` (i)` suffixes until the name neither exists in the
directory nor is reserved. -/
def windowsGetName (exs : List Char → Bool) (reserved : List (List Char))
    (dir : List Char) (filename : List Char) (ext : Option (List Char))
    (fuel : Nat) : Except PyErr (List Char × Option (List Char)) :=
  let fext := formatExtension ext
  let fn0 := pySubAnchored winEnumMatch [] filename
  match enumRenameLoop winEnumMatch
      (fun i => ' ' :: '(' :: (natChars i ++ [')'])) exs reserved dir fext fuel 0 fn0 with
  | .error e => .error e
  | .ok fn => .ok (fn, ext)

/-- `LinuxRenamer.get_name` (renamer.py lines 76-97): same loop with the
` - i` suffix style. -/
def linuxGetName (exs : List Char → Bool) (reserved : List (List Char))
    (dir : List Char) (filename : List Char) (ext : Option (List Char))
    (fuel : Nat) : Except PyErr (List Char × Option (List Char)) :=
  let fext := formatExtension ext
  let fn0 := pySubAnchored linuxEnumMatch [] filename
  match enumRenameLoop linuxEnumMatch
      (fun i => ' ' :: '-' :: ' ' :: natChars i) exs reserved dir fext fuel 0 fn0 with
  | .error e => .error e
  | .ok fn => .ok (fn, ext)

/-- The `while (...) and i < 100` loop of `UniqueRenamer.get_name`: `coll j`
says whether the `j`-th generated UUID candidate collides (`uuids 0` is the
candidate generated before the loop).  Returns the final value of `i`; the
guard `i < 100` bounds the loop, so fuel `101` is always sufficient. -/
def uniqueLoop (coll : Nat → Bool) : Nat → Nat → Nat
  | 0, i => i
  | fuel + 1, i => if coll i ∧ i < 100 then uniqueLoop coll fuel (i + 1) else i

/-- `UniqueRenamer.get_name` (renamer.py lines 100-129): generate UUID4
candidates (`uuids` models the stream of `str(uuid4())` values) until one
neither exists nor is reserved; after 100 failed regenerations (`i == 100`)
raise `BlockingIOError`. -/
def uniqueGetName (exs : List Char → Bool) (reserved : List (List Char))
    (dir : List Char) (uuids : Nat → List Char) (ext : Option (List Char)) :
    Except PyErr (List Char × Option (List Char)) :=
  let fext := formatExtension ext
  let coll := fun j => renamerCollides exs reserved dir fext (uuids j)
  let i := uniqueLoop coll 101 0
  if i = 100 then .error .blockingError
  else .ok (uuids i, ext)

/- ------------------------------------------------------------------ -/
/- Concrete run drivers and inputs used by the claim theorems.         -/
/- ------------------------------------------------------------------ -/

/-- The round-trip scenario of the spec: build a `FileContent` from payload
`C` with `force=True` and block size `B`, obtain the iterator
(`__iter__`), drive it to exhaustion collecting the yielded blocks, then read
the `content` property on the resulting state.  Returns the blocks and the
content value. -/
def contentRoundTrip (C : List Nat) (B fuel : Nat) :
    Except PyErr (List (List Nat) × List Nat) :=
  match fileContentMk (some C) true B none with
  | .error e => .error e
  | .ok s0 =>
      match s0.ensureCache with
      | .error e => .error e
      | .ok s1 =>
          match drainBlocks fuel s1 with
          | .error e => .error e
          | .ok br =>
              match br.2.contentProp fuel with
              | (.ok v, _) => .ok (br.1, v)
              | (.error e, _) => .error e

/-- The `FileContent` state produced by `FileContent.__init__` on payload
`[1, 2, 3]` with `force=True` and the default block size: the strategy is
`CacheInMemory` and no cache instance exists yet. -/
def c1CrashState : FCState :=
  ⟨256, false, ⟨[1, 2, 3], 0, true⟩, some .memoryKind, none⟩

/-- A `FileContent` over payload `[1, 2, 3]` with the default block size 256,
default `NonCache` strategy and its cache instance already created (as after
`__iter__` or a `content` access). -/
def c6Input : FCState :=
  ⟨256, false, ⟨[1, 2, 3], 0, true⟩, some .noneKind, some .nonCache⟩

/-- The same `FileContent` state while its iterator is being consumed
(`_iterable_in_use` set by a pending `__next__`). -/
def c6Busy : FCState :=
  ⟨256, true, ⟨[1, 2, 3], 0, true⟩, some .noneKind, some .nonCache⟩

/-- A `FilePacket` holding exactly one entry whose byte length is `0`. -/
def c9ZeroPacket : FilePacket Unit :=
  (FilePacket.mk0 Unit).setItem [1] () 0

/-- A `FilePacket` holding one entry of byte length `3`. -/
def c9Packet3 : FilePacket Unit :=
  (FilePacket.mk0 Unit).setItem [1] () 3

/-- Bool form of a manifest line that offers a candidate digest `d` for the
target `full_name`: non-blank, not a comment, does not contain the full path,
contains the full name, and its first token is `d`. -/
def candidateLineB (fullPath fullName d l : List Char) : Bool :=
  (match l with
   | [] => false
   | c :: _ => c ≠ ';' ∧ c ≠ '#') &&
  !containsSub fullPath l && containsSub fullName l &&
  (firstToken l == some d)

/-- Storage model for the C2 scenario: sidecar files `d/a.md5` and `d/b.md5`
both list `img.png`, with digests `aaa` and `bbb` respectively. -/
def c2FsDisagree : List Char → Option (List (List Char)) := fun p =>
  if p = "d/a.md5".toList then some ["aaa  img.png".toList]
  else if p = "d/b.md5".toList then some ["bbb  img.png".toList]
  else none

/-- Storage model for the C2 agreement scenario: both sidecar files list
`img.png` with the digest `aaa`. -/
def c2FsAgree : List Char → Option (List (List Char)) := fun p =>
  if p = "d/a.md5".toList then some ["aaa  img.png".toList]
  else if p = "d/b.md5".toList then some ["aaa  img.png".toList]
  else none

/-- Existing paths for the first Windows/Linux renamer scenario: only
`photo.jpg` exists under the directory prefix `dir`. -/
def c3ExistsOne : List Char → Bool := fun p => p == "dirphoto.jpg".toList

/-- Existing paths for the second Windows scenario: `photo.jpg` and
`photo (1).jpg` exist. -/
def c3ExistsTwoWin : List Char → Bool := fun p =>
  p == "dirphoto.jpg".toList || p == "dirphoto (1).jpg".toList

/-- Existing paths for the second Linux scenario: `photo.jpg` and
`photo - 1.jpg` exist. -/
def c3ExistsTwoLinux : List Char → Bool := fun p =>
  p == "dirphoto.jpg".toList || p == "dirphoto - 1.jpg".toList

/- ================================================================== -/
/- Theorems.                                                           -/
/- ================================================================== -/

/-- Helper: a comparison loop over elements that all compare truthy returns
`True`. -/
theorem comparerLoop_all_true {α : Type} (cmp : α → α → Option Bool) (obj : α)
    (l : List α) (h : ∀ x ∈ l, cmp obj x = some true) :
    comparerLoop cmp obj l = some true := by
  induction l with
  | nil => rfl
  | cons e rest ih =>
      have he := h e (by simp)
      simp [comparerLoop, he]
      exact ih (fun x hx => h x (by simp [hx]))

/-- Helper: the comparison loop returns the first non-`True` result without
depending on later elements. -/
theorem comparerLoop_first_falsy {α : Type} (cmp : α → α → Option Bool) (obj : α)
    (pre : List α) (e : α) (post : List α)
    (hpre : ∀ x ∈ pre, cmp obj x = some true) (he : cmp obj e ≠ some true) :
    comparerLoop cmp obj (pre ++ e :: post) = cmp obj e := by
  induction pre with
  | nil => simp [comparerLoop, he]
  | cons a rest ih =>
      have ha := hpre a (by simp)
      simp only [List.cons_append, comparerLoop, ha, if_pos rfl]
      exact ih (fun x hx => hpre x (by simp [hx]))

/-- C7: `BaseComparer.process` evaluates `is_the_same` on the candidates in
order and returns the first result that is `False` or `None` (preserving the
distinction, and independent of any later candidate), and returns `True`
when every candidate compares truthy; the candidate list must be non-empty. -/
theorem claim_C7_comparer_short_circuit {α : Type} (cmp : α → α → Option Bool)
    (obj : α) :
    (∀ (pre post : List α) (e : α), (∀ x ∈ pre, cmp obj x = some true) →
        cmp obj e ≠ some true →
        comparerProcess cmp obj (pre ++ e :: post) = .ok (cmp obj e)) ∧
    (∀ objs : List α, objs ≠ [] → (∀ x ∈ objs, cmp obj x = some true) →
        comparerProcess cmp obj objs = .ok (some true)) := by
  constructor
  · intro pre post e hpre he
    have hne : (pre ++ e :: post).isEmpty = false := by
      cases pre <;> simp
    simp [comparerProcess, hne, comparerLoop_first_falsy cmp obj pre e post hpre he]
  · intro objs hne hall
    have hne' : objs.isEmpty = false := by
      cases objs with
      | nil => exact absurd rfl hne
      | cons a rest => simp
    simp [comparerProcess, hne', comparerLoop_all_true cmp obj objs hall]

/-- C7 witness: with candidates `[0, 1, 2]` where `0` compares `True`, `1`
compares `False` and `2` compares `None`, the process returns `False`. -/
theorem claim_C7_witness :
    comparerProcess
      (fun _ x => if x = 0 then some true else if x = 1 then some false else none)
      (0 : Nat) [0, 1, 2] = .ok (some false) := by
  have h :=
    (claim_C7_comparer_short_circuit
      (fun _ x => if x = 0 then some true else if x = 1 then some false else none)
      (0 : Nat)).1 [0] [2] 1 (by decide) (by decide)
  simpa using h

/-- C4: on every `NonCache` instance, after any sequence of prior method
calls, `load_from_cache`, `load_buffer_from_cache` and `consume` all raise
`OperationNotAllowed`; none of them ever returns data. -/
theorem claim_C4_noncache_always_rejects (ops : List NCOp) :
    ((ops.foldl NCState.step NCState.mk0).loadFromCache
        = .error .operationNotAllowed) ∧
    ((ops.foldl NCState.step NCState.mk0).loadBufferFromCache
        = .error .operationNotAllowed) ∧
    ((ops.foldl NCState.step NCState.mk0).consume
        = .error .operationNotAllowed) :=
  ⟨rfl, rfl, rfl⟩

/-- C8: `to_save()` then `saved()` leaves `save = False, was_saved = True`;
a further `to_save()` flips them back to `save = True, was_saved = False`;
after either method the pending flag and the done flag are never both true. -/
theorem claim_C8_save_action_flags (a : FileActions) :
    (a.toSave.savedCall.save = false ∧ a.toSave.savedCall.was_saved = true) ∧
    (a.toSave.savedCall.toSave.save = true ∧
        a.toSave.savedCall.toSave.was_saved = false) ∧
    (¬ (a.toSave.save = true ∧ a.toSave.was_saved = true)) ∧
    (¬ (a.savedCall.save = true ∧ a.savedCall.was_saved = true)) := by
  simp [FileActions.toSave, FileActions.savedCall]

/-- C10: `FileContent.__init__` raises `ValueError` exactly on a falsy
`raw_value` (`None`, empty string or empty bytes) when no prebuilt buffer is
supplied through the keyword arguments, so no `FileContent` with empty
initial content is constructible that way. -/
theorem claim_C10_constructor_rejects_empty (raw : Option (List Nat))
    (force : Bool) (B : Nat) :
    ((raw = none ∨ raw = some []) →
        fileContentMk raw force B none = .error .valueError) ∧
    (∀ s, fileContentMk raw force B none = .ok s →
        s.buffer.data ≠ [] ∧ raw = some s.buffer.data) := by
  constructor
  · rintro (rfl | rfl) <;> rfl
  · intro s hs
    match raw, hs with
    | some (v :: rest), hs =>
        simp [fileContentMk] at hs
        subst hs
        exact ⟨by simp, rfl⟩

/-- C10 witness: constructing from `None` without a buffer keyword raises
`ValueError`. -/
theorem claim_C10_witness :
    fileContentMk none false 256 none = .error .valueError :=
  (claim_C10_constructor_rejects_empty none false 256).1 (Or.inl rfl)

/-- C9 amended: `FilePacket.reset()` on a packet with at least one entry
archives the mapping into history, clears the mapping and leaves `length`
untouched; hence when the pre-reset total length is non-zero it no longer
equals the (now zero) sum of stored entry lengths. -/
theorem claim_C9_reset_keeps_length {F : Type} (p : FilePacket F)
    (h : p.internalFiles ≠ []) :
    p.reset.internalFiles = [] ∧
    p.reset.history = some (p.history.getD [] ++ [p.internalFiles]) ∧
    p.reset.length = p.length ∧
    p.reset.filesLength.sum = 0 ∧
    (p.length ≠ 0 → p.reset.length ≠ p.reset.filesLength.sum) := by
  have hne : p.internalFiles.isEmpty = false := by
    cases hif : p.internalFiles with
    | nil => exact absurd hif h
    | cons a rest => rfl
  cases hh : p.history with
  | none =>
      refine ⟨?_, ?_, ?_, ?_, ?_⟩ <;>
        simp [FilePacket.reset, FilePacket.cleanHistory, FilePacket.filesLength, hh, hne]
  | some hist =>
      refine ⟨?_, ?_, ?_, ?_, ?_⟩ <;>
        simp [FilePacket.reset, FilePacket.cleanHistory, FilePacket.filesLength, hh, hne]

/-- Helper: scanning a candidate manifest line (non-comment, mentions the
full name but not the full path, first token `d`) appends the candidate and
continues with the remaining lines. -/
theorem scanManifest_candidate_step (fullPath fullName fp d l : List Char)
    (rest : List (List Char)) (cs : List (List Char × List Char))
    (h : candidateLineB fullPath fullName d l = true) :
    scanManifest fullPath fullName fp (l :: rest) cs
      = scanManifest fullPath fullName fp rest (cs ++ [(d, fp)]) := by
  cases l with
  | nil => simp [candidateLineB] at h
  | cons c tail =>
      simp only [candidateLineB, Bool.and_eq_true, Bool.not_eq_true',
        beq_iff_eq, decide_eq_true_eq] at h
      obtain ⟨⟨⟨hcomment, hpath⟩, hname⟩, htok⟩ := h
      simp [scanManifest, hcomment, hpath, hname, htok]

/-- C2 amended: when the first sidecar file checked contains exactly one line
listing the target, its digest is returned at once and any further sidecar
file is never consulted — so two agreeing files return the shared digest
without error, but two disagreeing files silently return the first file's
digest rather than raising.  `MultipleFileExistError` is raised exactly when
a single sidecar file holds several candidate lines with differing digests
(agreeing lines within one file also return the digest without error). -/
theorem claim_C2_manifest_lookup (fullPath fullName p1 p2 l1 l2 d1 d2 : List Char)
    (fs : List Char → Option (List (List Char)))
    (h1 : candidateLineB fullPath fullName d1 l1 = true)
    (h2 : candidateLineB fullPath fullName d2 l2 = true) :
    (fs p1 = some [l1] →
        loadFromFile fullPath fullName [p1, p2] fs = .ok (d1, p1)) ∧
    (fs p1 = some [l1, l2] → d1 ≠ d2 →
        loadFromFile fullPath fullName [p1] fs = .error .multipleFileExist) ∧
    (fs p1 = some [l1, l2] → d1 = d2 →
        loadFromFile fullPath fullName [p1] fs = .ok (d1, p1)) := by
  refine ⟨?_, ?_, ?_⟩
  · intro hfs1
    have hstep := scanManifest_candidate_step fullPath fullName p1 d1 l1 [] [] h1
    simp only [loadFromFile, hfs1]
    rw [hstep]
    simp [scanManifest]
  · intro hfs hne
    have hstep1 := scanManifest_candidate_step fullPath fullName p1 d1 l1 [l2] [] h1
    have hstep2 := scanManifest_candidate_step fullPath fullName p1 d2 l2 [] [(d1, p1)] h2
    simp only [loadFromFile, hfs]
    rw [hstep1]
    simp only [List.nil_append]
    rw [hstep2]
    simp [scanManifest, Ne.symm hne]
  · intro hfs heq
    subst heq
    have hstep1 := scanManifest_candidate_step fullPath fullName p1 d1 l1 [l2] [] h1
    have hstep2 := scanManifest_candidate_step fullPath fullName p1 d1 l2 [] [(d1, p1)] h2
    simp only [loadFromFile, hfs]
    rw [hstep1]
    simp only [List.nil_append]
    rw [hstep2]
    simp [scanManifest]

/-- C2 counterexample: two sidecar files list `img.png` with distinct digests
`aaa` and `bbb`; `load_from_file` returns `aaa` from the first file instead of
raising `MultipleFileExistError` as the claim states. -/
theorem claim_C2_counterexample :
    loadFromFile "d/img.png".toList "img.png".toList
        ["d/a.md5".toList, "d/b.md5".toList] c2FsDisagree
      = .ok ("aaa".toList, "d/a.md5".toList) ∧
    "aaa".toList ≠ "bbb".toList := by
  exact ⟨by rfl, by decide⟩

/-- C2 witness: two sidecar files agreeing on digest `aaa` for `img.png`
return that digest without error. -/
theorem claim_C2_witness :
    loadFromFile "d/img.png".toList "img.png".toList
        ["d/a.md5".toList, "d/b.md5".toList] c2FsAgree
      = .ok ("aaa".toList, "d/a.md5".toList) :=
  (claim_C2_manifest_lookup "d/img.png".toList "img.png".toList
    "d/a.md5".toList "d/b.md5".toList
    "aaa  img.png".toList "aaa  img.png".toList
    "aaa".toList "aaa".toList c2FsAgree (by decide) (by decide)).1 (by decide)

/-- C3: evaluation of the renamers at the spec's scenario.  With only
`photo.jpg` existing both renamers behave as specified (`photo (1)` /
`photo - 1`), but when `photo (1).jpg` (resp. `photo - 1.jpg`) also exists
the Python ≥ 3.7 `re.sub` empty-match rule makes the enumeration replacement
fire twice, producing `photo (2) (2)` / `photo - 2 - 2` instead of the
specified `photo (2)` / `photo - 2`. -/
theorem claim_C3_renamer_behavior :
    windowsGetName c3ExistsOne [] "dir".toList "photo".toList
        (some "jpg".toList) 10 = .ok ("photo (1)".toList, some "jpg".toList) ∧
    windowsGetName c3ExistsTwoWin [] "dir".toList "photo".toList
        (some "jpg".toList) 10 = .ok ("photo (2) (2)".toList, some "jpg".toList) ∧
    linuxGetName c3ExistsOne [] "dir".toList "photo".toList
        (some "jpg".toList) 10 = .ok ("photo - 1".toList, some "jpg".toList) ∧
    linuxGetName c3ExistsTwoLinux [] "dir".toList "photo".toList
        (some "jpg".toList) 10 = .ok ("photo - 2 - 2".toList, some "jpg".toList) :=
  ⟨rfl, rfl, rfl, rfl⟩

/-- Helper: when every candidate from `i` up to 99 collides, the
`UniqueRenamer` loop runs `i` up to 100. -/
theorem uniqueLoop_all_collide (coll : Nat → Bool) :
    ∀ fuel i, (∀ j, i ≤ j → j < 100 → coll j = true) → i ≤ 100 →
      100 - i < fuel → uniqueLoop coll fuel i = 100 := by
  intro fuel
  induction fuel with
  | zero => intro i _ _ hf; omega
  | succ f ih =>
      intro i h hi hf
      by_cases hilt : i < 100
      · have hc : coll i = true := h i le_rfl hilt
        simp only [uniqueLoop, hc, hilt, and_self, if_pos, true_and]
        exact ih (i + 1) (fun j hj hj' => h j (by omega) hj') (by omega) (by omega)
      · have hieq : i = 100 := by omega
        subst hieq
        simp [uniqueLoop]

/-- Helper: when `k < 100` is the first non-colliding candidate index, the
`UniqueRenamer` loop stops at `k`. -/
theorem uniqueLoop_first_free (coll : Nat → Bool) :
    ∀ fuel i k, i ≤ k → k < 100 → (∀ j, i ≤ j → j < k → coll j = true) →
      coll k = false → k - i < fuel → uniqueLoop coll fuel i = k := by
  intro fuel
  induction fuel with
  | zero => intro i k _ _ _ _ hf; omega
  | succ f ih =>
      intro i k hik hk h hcoll hf
      by_cases hieq : i = k
      · subst hieq
        simp [uniqueLoop, hcoll]
      · have hc : coll i = true := h i le_rfl (by omega)
        have hilt : i < 100 := by omega
        simp only [uniqueLoop, hc, hilt, and_self, if_pos, true_and]
        exact ih (i + 1) k (by omega) hk (fun j hj hj' => h j (by omega) hj') hcoll (by omega)

/-- C5: `UniqueRenamer.get_name` raises `BlockingIOError` exactly when the
first 100 generated UUID candidates all collide (exist or are reserved); when
some candidate among the first 100 is free, it returns the first free
candidate with the extension unchanged. -/
theorem claim_C5_unique_renamer (exs : List Char → Bool)
    (reserved : List (List Char)) (dir : List Char) (uuids : Nat → List Char)
    (ext : Option (List Char)) :
    (uniqueGetName exs reserved dir uuids ext = .error .blockingError ↔
      ∀ j, j < 100 →
        renamerCollides exs reserved dir (formatExtension ext) (uuids j) = true) ∧
    (∀ k, k < 100 →
      (∀ j, j < k →
        renamerCollides exs reserved dir (formatExtension ext) (uuids j) = true) →
      renamerCollides exs reserved dir (formatExtension ext) (uuids k) = false →
      uniqueGetName exs reserved dir uuids ext = .ok (uuids k, ext)) := by
  set coll : Nat → Bool :=
    fun j => renamerCollides exs reserved dir (formatExtension ext) (uuids j) with hcoll
  constructor
  · constructor
    · intro herr
      by_contra hnot
      push_neg at hnot
      obtain ⟨j0, hj0, hj0c⟩ := hnot
      have hex : ∃ j, j < 100 ∧ coll j = false :=
        ⟨j0, hj0, by simpa using hj0c⟩
      classical
      have hfind := Nat.find_spec hex
      have hmin : ∀ j, j < Nat.find hex → ¬ (j < 100 ∧ coll j = false) :=
        fun j hj => Nat.find_min hex hj
      set k := Nat.find hex with hk
      have hloop : uniqueLoop coll 101 0 = k := by
        refine uniqueLoop_first_free coll 101 0 k (Nat.zero_le k) hfind.1 ?_ hfind.2 ?_
        · intro j _ hjk
          have := hmin j hjk
          rcases Bool.eq_false_or_eq_true (coll j) with ht | hf
          · exact ht
          · exact absurd ⟨by omega, hf⟩ this
        · omega
      have : uniqueGetName exs reserved dir uuids ext = .ok (uuids k, ext) := by
        simp [uniqueGetName, ← hcoll, hloop]
        omega
      rw [this] at herr
      exact absurd herr (by simp)
    · intro hall
      have hloop : uniqueLoop coll 101 0 = 100 :=
        uniqueLoop_all_collide coll 101 0 (fun j _ hj => hall j hj) (by omega) (by omega)
      simp [uniqueGetName, ← hcoll, hloop]
  · intro k hk hbefore hfree
    have hloop : uniqueLoop coll 101 0 = k :=
      uniqueLoop_first_free coll 101 0 k (Nat.zero_le k) hk
        (fun j _ hj => hbefore j hj) hfree (by omega)
    simp [uniqueGetName, ← hcoll, hloop]
    omega

/-- C5 witness: with every candidate colliding the call raises the blocking
error; with only the first candidate colliding it returns the second. -/
theorem claim_C5_witness :
    uniqueGetName (fun _ => true) [] [] (fun j => natChars j) none
      = .error .blockingError ∧
    uniqueGetName (fun p => p == "0".toList) [] [] (fun j => natChars j) none
      = .ok (natChars 1, none) := by
  constructor
  · exact (claim_C5_unique_renamer (fun _ => true) [] [] (fun j => natChars j)
      none).1.mpr (by decide)
  · exact (claim_C5_unique_renamer (fun p => p == "0".toList) [] []
      (fun j => natChars j) none).2 1 (by decide) (by decide) (by decide)

/-- C1: evaluation of the embedded code at the claim's scenario.
Constructing a `FileContent` from `[1, 2, 3]` with `force=True` selects the
`CacheInMemory` strategy, but then `__iter__` (and equally the `content`
property) instantiates it with `self.cache_helper(buffer_helper=...)` and
`CacheInMemory.__init__` calls the non-callable `BufferStr`/`BufferBytes`
instance, raising `TypeError` before a single block is yielded — so the
claimed round trip never happens. -/
theorem claim_C1_cacheinmemory_crash :
    fileContentMk (some [1, 2, 3]) true 256 none = .ok c1CrashState ∧
    FCState.ensureCache c1CrashState = .error .typeErrorNotCallable ∧
    (FCState.contentProp 4 c1CrashState).1 = .error .typeErrorNotCallable ∧
    contentRoundTrip [1, 2, 3] 256 4 = .error .typeErrorNotCallable :=
  ⟨rfl, rfl, rfl, rfl⟩

/-- Helper: `__next__` on a state whose cache instance exists and whose
buffer still has data before the cursor returns exactly the next
`_block_size`-sized block, advancing the cursor and setting the
iteration-in-use flag. -/
theorem next_ok (bs : Nat) (iu : Bool) (data : List Nat) (pos : Nat)
    (seek : Bool) (ch : Option CacheKind) (cc : CachedContent)
    (hblk : (data.drop pos).take bs ≠ []) :
    ∃ cc2, FCState.next ⟨bs, iu, ⟨data, pos, seek⟩, ch, some cc⟩
      = (.ok ((data.drop pos).take bs),
         ⟨bs, true, ⟨data, pos + ((data.drop pos).take bs).length, seek⟩,
          ch, some cc2⟩) := by
  cases cc with
  | nonCache =>
      exact ⟨.nonCache, by
        simp [FCState.next, StreamBuf.read, FCState.cachedFlag,
          FCState.cacheSaveAndReturn, hblk]⟩
  | memory st p c =>
      cases c with
      | true =>
          exact ⟨.memory st p true, by
            simp [FCState.next, StreamBuf.read, FCState.cachedFlag,
              FCState.cacheSaveAndReturn, hblk]⟩
      | false =>
          exact ⟨.memory (st ++ (data.drop pos).take bs)
              (st ++ (data.drop pos).take bs).length false, by
            simp [FCState.next, StreamBuf.read, FCState.cachedFlag,
              FCState.cacheSaveAndReturn, hblk]⟩

/-- C6 amended: `read(size)` with a positive size raises `RecursionError`
whenever block iteration is in progress; when it is not in progress, the
cache instance has been initialised and at least `size` elements remain at
the buffer cursor, `read(size)` returns exactly one block of the requested
size and afterwards the block-size attribute equals its value before the
call (and the iteration flag is clear). -/
theorem claim_C6_read_discipline :
    (∀ (s : FCState) (n fuel : Nat), s.iterableInUse = true →
        FCState.read fuel s (some n) = (.error .recursionError, s)) ∧
    (∀ (s : FCState) (n fuel : Nat) (cc : CachedContent),
        s.iterableInUse = false → s.cachedContent = some cc → 1 ≤ n →
        n + s.buffer.pos ≤ s.buffer.data.length →
        ∃ s2, FCState.read fuel s (some n)
            = (.ok ((s.buffer.data.drop s.buffer.pos).take n), s2) ∧
          ((s.buffer.data.drop s.buffer.pos).take n).length = n ∧
          s2.blockSize = s.blockSize ∧ s2.iterableInUse = false) := by
  constructor
  · intro s n fuel h
    simp [FCState.read, h]
  · intro s n fuel cc hu hcc hn hrem
    obtain ⟨m, rfl⟩ : ∃ m, n = m + 1 := ⟨n - 1, by omega⟩
    obtain ⟨bs, iu, ⟨data, pos, seek⟩, ch, cci⟩ := s
    simp only at hu hcc hrem
    subst hu
    subst hcc
    have hblk : (data.drop pos).take (m + 1) ≠ [] := by
      have hlen : ((data.drop pos).take (m + 1)).length = m + 1 := by
        simp [List.length_take, List.length_drop]
        omega
      intro hnil
      rw [hnil] at hlen
      simp at hlen
    obtain ⟨cc2, hnext⟩ := next_ok (m + 1) false data pos seek ch cc hblk
    refine ⟨⟨bs, false, ⟨data, pos + ((data.drop pos).take (m + 1)).length, seek⟩,
        ch, some cc2⟩, ?_, ?_, rfl, rfl⟩
    · simp only [FCState.read, Bool.false_eq_true, if_false]
      rw [hnext]
    · simp [List.length_take, List.length_drop]
      omega

/-- C6 counterexample: with only 3 elements in the buffer and iteration not
in progress, `read(5)` succeeds but returns a block of length 3, not the
requested 5 — the claim's "exactly one block of the requested size" fails. -/
theorem claim_C6_counterexample :
    (FCState.read 0 c6Input (some 5)).1 = .ok [1, 2, 3] ∧
    ([1, 2, 3] : List Nat).length ≠ 5 :=
  ⟨rfl, by decide⟩

/-- C6 witness: the recursion-error branch on a busy state and the
successful single-block branch on an idle state at concrete inputs. -/
theorem claim_C6_witness :
    FCState.read 0 c6Busy (some 5) = (.error .recursionError, c6Busy) ∧
    (∃ s2, FCState.read 0 c6Input (some 2)
        = (.ok ((c6Input.buffer.data.drop c6Input.buffer.pos).take 2), s2) ∧
      ((c6Input.buffer.data.drop c6Input.buffer.pos).take 2).length = 2 ∧
      s2.blockSize = c6Input.blockSize ∧ s2.iterableInUse = false) :=
  ⟨claim_C6_read_discipline.1 c6Busy 5 0 rfl,
   claim_C6_read_discipline.2 c6Input 2 0 .nonCache rfl rfl (by decide) (by decide)⟩

/-- C9 counterexample: a packet holding one entry of byte length 0 has
`length = 0` both before and after `reset()`, so after `reset()` the total
length still equals the (zero) sum of stored entry lengths, contradicting
the claim's "no longer equals" for packets holding at least one entry. -/
theorem claim_C9_counterexample :
    c9ZeroPacket.internalFiles ≠ [] ∧
    c9ZeroPacket.reset.length = c9ZeroPacket.reset.filesLength.sum := by
  decide

/-- C9 witness: the amended statement applied to a packet holding one entry
of byte length 3. -/
theorem claim_C9_witness :
    c9Packet3.reset.internalFiles = [] ∧
    c9Packet3.reset.history
      = some (c9Packet3.history.getD [] ++ [c9Packet3.internalFiles]) ∧
    c9Packet3.reset.length = c9Packet3.length ∧
    c9Packet3.reset.filesLength.sum = 0 ∧
    (c9Packet3.length ≠ 0 →
        c9Packet3.reset.length ≠ c9Packet3.reset.filesLength.sum) :=
  claim_C9_reset_keeps_length c9Packet3 (by decide)

end FileZ
